import Mathlib

/-!
Verification development for the TUSSAM transit API repository.

Shallow embedding of the core subsystem: the stop/line/membership data
model over SQLite (`app/database.py`), the proximity search and arrival
retrieval (`app/services/tussam.py`), the two TTL caches, and the retry
logic of the upstream HTTP client.

Modelling conventions:
- Machine floats become exact rationals (`ℚ`); timestamps become integer
  seconds (`ℤ`); SQLite tables become Lean lists of row structures.
- The transcendental geospatial functions (`haversine`,
  `_calculate_bearing`) are abstracted as function parameters: the
  properties proved here (filtering, sorting, annotation, caching) hold
  for every distance/bearing function, hence for the concrete ones.
- Fallible SQL inserts are modelled by an explicit failure oracle;
  a raised exception is an `Except.error` carrying the post-rollback
  table state.
- Python `sorted` (stable) is modelled by `List.mergeSort`, which is
  stable in the same sense.
-/

namespace Tussam

/-- A row of the `paradas` table (`app/database.py`, schema at
`init_db`): primary-key code, display name, WGS84 coordinates, the seven
optional address columns and an update timestamp (integer seconds). -/
structure ParadaRow where
  codigo : String
  nombre : String
  latitud : ℚ
  longitud : ℚ
  calle : Option String
  numero : Option String
  codigo_postal : Option String
  municipio : Option String
  provincia : Option String
  comunidad_autonoma : Option String
  direccion_completa : Option String
  updated_at : ℤ
deriving Repr, DecidableEq

/-- An input dict for `save_paradas_batch`: as built by
`sync_paradas_from_api`, it carries only code, name, coordinates and the
two optional address keys `calle` and `numero`. -/
structure ParadaInput where
  codigo : String
  nombre : String
  latitud : ℚ
  longitud : ℚ
  calle : Option String
  numero : Option String
deriving Repr, DecidableEq

/-- Python truthiness of the `calle` value in `save_paradas_batch`
(`if calle:`): `None` and the empty string are falsy. -/
def calleTruthy : Option String → Bool
  | none => false
  | some s => s != ""

/-- One iteration of the loop of `save_paradas_batch`
(`app/database.py` lines 182-221): SQLite `INSERT ... ON CONFLICT(codigo)
DO UPDATE`.  With a truthy `calle` the update sets name, coordinates,
`calle`, `numero` and the timestamp; without it the update sets only
name, coordinates and the timestamp.  A fresh insert fills the columns
named in the `INSERT` and leaves every other column NULL. -/
def upsert_parada (now : ℤ) (rows : List ParadaRow) (p : ParadaInput) :
    List ParadaRow :=
  if rows.any (fun r => r.codigo == p.codigo) then
    rows.map (fun r =>
      if r.codigo == p.codigo then
        if calleTruthy p.calle then
          { r with nombre := p.nombre, latitud := p.latitud,
                   longitud := p.longitud, calle := p.calle,
                   numero := p.numero, updated_at := now }
        else
          { r with nombre := p.nombre, latitud := p.latitud,
                   longitud := p.longitud, updated_at := now }
      else r)
  else
    if calleTruthy p.calle then
      rows ++ [⟨p.codigo, p.nombre, p.latitud, p.longitud, p.calle,
               p.numero, none, none, none, none, none, now⟩]
    else
      rows ++ [⟨p.codigo, p.nombre, p.latitud, p.longitud, none, none,
               none, none, none, none, none, now⟩]

/-- The batch loop of `save_paradas_batch`: upsert each input stop in
order. -/
def save_paradas_batch (now : ℤ) (rows : List ParadaRow)
    (paradas : List ParadaInput) : List ParadaRow :=
  paradas.foldl (upsert_parada now) rows

/-- The `SELECT * FROM paradas WHERE codigo = ?` lookup of
`get_parada_by_codigo`. -/
def findParada (rows : List ParadaRow) (codigo : String) :
    Option ParadaRow :=
  rows.find? (fun r => r.codigo == codigo)

/-- A row of the `paradas_lineas` membership table: stop code, line
label, direction and ordinal, with primary key
`(parada_codigo, linea_numero, sentido)`. -/
structure Relacion where
  parada_codigo : String
  linea_numero : String
  sentido : ℤ
  orden : ℤ
deriving Repr, DecidableEq

/-- The primary-key projection of a membership row. -/
def relKey (r : Relacion) : String × String × ℤ :=
  (r.parada_codigo, r.linea_numero, r.sentido)

/-- SQLite `INSERT OR IGNORE INTO paradas_lineas`: the row is appended
unless a row with the same primary key is already present. -/
def insertOrIgnore (rows : List Relacion) (r : Relacion) : List Relacion :=
  if rows.any (fun x => decide (relKey x = relKey r)) then rows
  else rows ++ [r]

/-- The insertion loop of `save_paradas_lineas_batch` with an explicit
failure oracle: rows are inserted in order, and `none` is returned as
soon as an insertion raises. -/
def insertAll (fails : Relacion → Bool) :
    List Relacion → List Relacion → Option (List Relacion)
  | rows, [] => some rows
  | rows, r :: rest =>
      if fails r then none else insertAll fails (insertOrIgnore rows r) rest

/-- The membership-replace operation `save_paradas_lineas_batch`
(`app/database.py` lines 420-441) acting on the `paradas_lineas` table:
an empty input returns immediately (warning logged, nothing deleted);
otherwise all rows are deleted, the new rows are inserted with
`INSERT OR IGNORE`, and any insertion error rolls the transaction back,
leaving the pre-call table (`Except.error` carries the post-rollback
state). -/
def save_paradas_lineas_batch (fails : Relacion → Bool)
    (relaciones : List Relacion) (table : List Relacion) :
    Except (List Relacion) (List Relacion) :=
  if relaciones.isEmpty then Except.ok table
  else
    match insertAll fails [] relaciones with
    | some rows => Except.ok rows
    | none => Except.error table

/-- Cache TTL for arrival times (`CACHE_TTL_MINUTES` in
`app/database.py`), in minutes. -/
def CACHE_TTL_MINUTES : ℤ := 1

/-- Cache TTL for geocoded addresses (`CACHE_DIRECCIONES_TTL_DIAS`), in
days. -/
def CACHE_DIRECCIONES_TTL_DIAS : ℤ := 30

/-- A row of the `tiempos_cache` table: stop code (primary key),
serialized payload and the storage timestamp in integer seconds. -/
structure TiemposRow where
  parada_codigo : String
  tiempos_json : String
  cached_at : ℤ
deriving Repr, DecidableEq

/-- A row of the `direcciones_cache` table, keyed by the rounded
coordinate pair. -/
structure DireccionRow where
  latitud : ℚ
  longitud : ℚ
  direccion_json : String
  cached_at : ℤ
deriving Repr, DecidableEq

/-- Python `round(x, 4)`: rounding to four decimal places, used for the
address-cache key in `get_cached_direccion` and `save_direccion_cache`.
Exact on the coordinates appearing in this development (no half-way
cases arise, so the float/half-even details of `round` do not matter). -/
def round4 (x : ℚ) : ℚ := (round (x * 10000) : ℚ) / 10000

/-- The cache read `get_cached_tiempos` (`app/database.py` lines
289-316): the row for the stop, if any, is served while younger than the
TTL; a corrupt payload (JSON decode failure, modelled by the `jsonOk`
oracle) is deleted and treated as a miss; an expired row is a miss but
stays in the table.  Returns the read result and the table after the
call. -/
def get_cached_tiempos (jsonOk : String → Bool) (now : ℤ)
    (table : List TiemposRow) (parada_codigo : String) :
    Option String × List TiemposRow :=
  match table.find? (fun r => r.parada_codigo == parada_codigo) with
  | some row =>
      if now - row.cached_at < CACHE_TTL_MINUTES * 60 then
        if jsonOk row.tiempos_json then (some row.tiempos_json, table)
        else (none, table.filter (fun r => !(r.parada_codigo == parada_codigo)))
      else (none, table)
  | none => (none, table)

/-- The cache write `save_tiempos_cache`: SQLite `INSERT OR REPLACE`
keyed by the stop code. -/
def save_tiempos_cache (now : ℤ) (table : List TiemposRow)
    (parada_codigo : String) (json : String) : List TiemposRow :=
  table.filter (fun r => !(r.parada_codigo == parada_codigo)) ++
    [⟨parada_codigo, json, now⟩]

/-- The address-cache read `get_cached_direccion` (`app/database.py`
lines 334-367): the query coordinates are rounded to four decimals and
looked up; the row is served while younger than the 30-day TTL; corrupt
payloads are deleted; expired rows are a miss but stay. -/
def get_cached_direccion (jsonOk : String → Bool) (now : ℤ)
    (table : List DireccionRow) (lat lon : ℚ) :
    Option String × List DireccionRow :=
  let lat_r := round4 lat
  let lon_r := round4 lon
  match table.find? (fun r => decide (r.latitud = lat_r ∧ r.longitud = lon_r)) with
  | some row =>
      if now - row.cached_at < CACHE_DIRECCIONES_TTL_DIAS * 86400 then
        if jsonOk row.direccion_json then (some row.direccion_json, table)
        else (none,
          table.filter (fun r => !decide (r.latitud = lat_r ∧ r.longitud = lon_r)))
      else (none, table)
  | none => (none, table)

/-- The address-cache write `save_direccion_cache`: coordinates rounded
to four decimals, `INSERT OR REPLACE` on the rounded key. -/
def save_direccion_cache (now : ℤ) (table : List DireccionRow)
    (lat lon : ℚ) (json : String) : List DireccionRow :=
  let lat_r := round4 lat
  let lon_r := round4 lon
  table.filter (fun r => !decide (r.latitud = lat_r ∧ r.longitud = lon_r)) ++
    [⟨lat_r, lon_r, json, now⟩]

/-- The retryable status set of `TussamService._get_with_retry`. -/
def retryable (s : ℕ) : Bool := s == 429 || s == 500 || s == 502 || s == 503

/-- Statuses for which `httpx.Response.raise_for_status` raises: the
4xx and 5xx ranges. -/
def raisesStatus (s : ℕ) : Bool := 400 ≤ s && s ≤ 599

/-- The loop of `TussamService._get_with_retry` (`app/services/tussam.py`
lines 351-380).  `responses i` is the status of the response to the
`i`-th GET; the loop tracks the remaining attempts, the index of the next
attempt, and the backoff sleeps issued so far (in reverse).  Result: the
list of sleep durations in seconds, and either the success status or the
`Except.error` status carried by the raised `HTTPStatusError`.  On
exhaustion the error carries the status of the last response. -/
def get_with_retry_go (responses : ℕ → ℕ) :
    ℕ → ℕ → List ℕ → List ℕ × Except ℕ ℕ
  | 0, idx, sleeps => (sleeps.reverse, Except.error (responses (idx - 1)))
  | n + 1, idx, sleeps =>
      let s := responses idx
      if retryable s then
        get_with_retry_go responses n (idx + 1) (2 ^ (idx + 1) :: sleeps)
      else if raisesStatus s then (sleeps.reverse, Except.error s)
      else (sleeps.reverse, Except.ok s)

/-- The full `TussamService._get_with_retry` with a given `max_retries`. -/
def get_with_retry (responses : ℕ → ℕ) (max_retries : ℕ) :
    List ℕ × Except ℕ ℕ :=
  get_with_retry_go responses max_retries 0 []

/-- The method `TussamService._bearing_diff` (`app/services/tussam.py` lines
263-270): minimal difference of two bearings, handling the 0°/360°
wraparound. -/
def _bearing_diff (bearing1 bearing2 : ℚ) : ℚ :=
  min |bearing1 - bearing2| (360 - |bearing1 - bearing2|)

/-- An annotated stop as returned by `get_paradas_cercanas`: the stop
row plus the rounded `distancia` field and, when a bearing was supplied,
the rounded `bearing` and `bearing_diff` fields. -/
structure ParadaCercana where
  parada : ParadaRow
  distancia : ℤ
  bearing : Option ℤ
  bearing_diff : Option ℤ
deriving Repr, DecidableEq

/-- The radius test of the scan loop in `get_paradas_cercanas`:
`distancia <= radio` on the exact (unrounded) distance.  The haversine
distance function is a parameter (see the module conventions). -/
def en_radio (haversine : ℚ → ℚ → ℚ → ℚ → ℚ) (lat lon radio : ℚ)
    (parada : ParadaRow) : Bool :=
  decide (haversine lat lon parada.latitud parada.longitud ≤ radio)

/-- The annotation built for one kept stop in the scan loop of
`get_paradas_cercanas`: the rounded distance and, if a bearing was
supplied, the rounded stop bearing and bearing difference. -/
def anota (haversine calculate_bearing : ℚ → ℚ → ℚ → ℚ → ℚ)
    (lat lon : ℚ) (bearing : Option ℚ) (parada : ParadaRow) :
    ParadaCercana :=
  match bearing with
  | some b =>
      let parada_bearing :=
        calculate_bearing lat lon parada.latitud parada.longitud
      { parada := parada,
        distancia := round (haversine lat lon parada.latitud parada.longitud),
        bearing := some (round parada_bearing),
        bearing_diff := some (round (_bearing_diff b parada_bearing)) }
  | none =>
      { parada := parada,
        distancia := round (haversine lat lon parada.latitud parada.longitud),
        bearing := none, bearing_diff := none }

/-- The scan loop of `get_paradas_cercanas` (`app/services/tussam.py`
lines 294-311): linear scan keeping the stops within the radius, in
input order, each annotated. -/
def paradas_en_radio (haversine calculate_bearing : ℚ → ℚ → ℚ → ℚ → ℚ)
    (lat lon radio : ℚ) (bearing : Option ℚ) (paradas : List ParadaRow) :
    List ParadaCercana :=
  paradas.filterMap (fun parada =>
    if en_radio haversine lat lon radio parada then
      some (anota haversine calculate_bearing lat lon bearing parada)
    else none)

/-- The sort key comparison used when a bearing is supplied:
`x.get("bearing_diff", 999)` ascending. -/
def leBearingDiff (x y : ParadaCercana) : Bool :=
  decide (x.bearing_diff.getD 999 ≤ y.bearing_diff.getD 999)

/-- The sort key comparison used without a bearing: `x["distancia"]`
ascending. -/
def leDistancia (x y : ParadaCercana) : Bool :=
  decide (x.distancia ≤ y.distancia)

/-- The method `TussamService.get_paradas_cercanas` (`app/services/tussam.py` lines
272-316): scan, then a stable sort by bearing difference when a bearing
is supplied and by distance otherwise.  The `bearing_tolerance` argument
is accepted (as in the source signature) but never used. -/
def get_paradas_cercanas (haversine calculate_bearing : ℚ → ℚ → ℚ → ℚ → ℚ)
    (lat lon radio : ℚ) (bearing : Option ℚ) (bearing_tolerance : ℚ)
    (paradas : List ParadaRow) : List ParadaCercana :=
  let cercanas :=
    paradas_en_radio haversine calculate_bearing lat lon radio bearing paradas
  match bearing with
  | some _ => cercanas.mergeSort leBearingDiff
  | none => cercanas.mergeSort leDistancia

/-- The stop-selection steps of the composite endpoint
`get_paradas_cercanas_con_tiempos` (`app/main.py`): call
`get_paradas_cercanas`, post-filter by
`p.get("bearing_diff", 999) <= bearing_tolerance` when a bearing was
given, and cap to `max_paradas`. -/
def seleccion_paradas_endpoint
    (haversine calculate_bearing : ℚ → ℚ → ℚ → ℚ → ℚ)
    (lat lon radio : ℚ) (bearing : Option ℚ) (bearing_tolerance : ℚ)
    (max_paradas : ℕ) (paradas : List ParadaRow) : List ParadaCercana :=
  let ps := get_paradas_cercanas haversine calculate_bearing lat lon radio
    bearing bearing_tolerance paradas
  let ps := match bearing with
    | some _ =>
        ps.filter (fun (p : ParadaCercana) =>
          decide (((p.bearing_diff.getD 999 : ℤ) : ℚ) ≤ bearing_tolerance))
    | none => ps
  ps.take max_paradas

/-- One arrival estimate of a line at a stop, as read from the upstream
payload in `get_tiempos_parada`. -/
structure Estimacion where
  segundos : ℤ
  destino : String
  distancia : ℤ
deriving Repr, DecidableEq

/-- One entry of `lineasCoincidentes` in the upstream arrival payload. -/
structure LineaCoincidente where
  labelLinea : String
  color : String
  estimaciones : List Estimacion
deriving Repr, DecidableEq

/-- One output arrival of `get_tiempos_parada`. -/
structure Tiempo where
  linea : String
  color : String
  tiempo_minutos : ℤ
  destino : String
  distancia_metros : ℤ
  sentido : Option ℤ
deriving Repr, DecidableEq

/-- The query `get_sentidos_for_parada` (`app/database.py` lines 455-471) as a
lookup function: for each line label, the directions recorded for that
line at the stop, in ascending order (the SQL `ORDER BY linea_numero,
sentido` groups rows per line sorted by direction); lines with no row
map to the empty list (`sentidos_map.get(label, [])`). -/
def get_sentidos_for_parada (table : List Relacion)
    (parada_codigo : String) : String → List ℤ :=
  fun linea =>
    ((table.filter (fun r =>
        r.parada_codigo == parada_codigo && r.linea_numero == linea)).map
      (·.sentido)).mergeSort (fun a b => decide (a ≤ b))

/-- The arrival-assembly loop of `TussamService.get_tiempos_parada`
(`app/services/tussam.py` lines 476-499): for each coinciding line,
resolve its direction — `sentidos[0] if len(sentidos) == 1 else None` —
and emit one `Tiempo` per estimate, with minutes computed by Python
floor division `segundos // 60`. -/
def build_tiempos (sentidos_map : String → List ℤ)
    (lineas : List LineaCoincidente) : List Tiempo :=
  lineas.flatMap (fun linea =>
    let sentidos := sentidos_map linea.labelLinea
    let sentido : Option ℤ :=
      match sentidos with
      | [s] => some s
      | _ => none
    linea.estimaciones.map (fun est =>
      { linea := linea.labelLinea, color := linea.color,
        tiempo_minutos := est.segundos.fdiv 60,
        destino := est.destino, distancia_metros := est.distancia,
        sentido := sentido }))

/-- The comparison used to sort arrivals: minutes-until-arrival
ascending. -/
def leTiempo (x y : Tiempo) : Bool :=
  decide (x.tiempo_minutos ≤ y.tiempo_minutos)

/-- The `tiempos` field of the result of
`TussamService.get_tiempos_parada` (line 506): the assembled arrivals,
stably sorted ascending by minutes and capped to the first 10. -/
def get_tiempos_parada (sentidos_map : String → List ℤ)
    (lineas : List LineaCoincidente) : List Tiempo :=
  ((build_tiempos sentidos_map lineas).mergeSort leTiempo).take 10

/-- The `ON CONFLICT(codigo) DO UPDATE` clause of the with-address
branch of `save_paradas_batch`: name, coordinates, `calle`, `numero` and
the timestamp take the excluded (input) values; every other column keeps
its stored value. -/
def upd_con_calle (now : ℤ) (p : ParadaInput) (r : ParadaRow) : ParadaRow :=
  { r with nombre := p.nombre, latitud := p.latitud,
           longitud := p.longitud, calle := p.calle, numero := p.numero,
           updated_at := now }

/-- The `ON CONFLICT(codigo) DO UPDATE` clause of the no-address branch
of `save_paradas_batch`: only name, coordinates and the timestamp take
the input values. -/
def upd_sin_calle (now : ℤ) (p : ParadaInput) (r : ParadaRow) : ParadaRow :=
  { r with nombre := p.nombre, latitud := p.latitud,
           longitud := p.longitud, updated_at := now }

/-- The update applied by `upsert_parada` to the conflicting stored
row. -/
def upd_parada (now : ℤ) (p : ParadaInput) (r : ParadaRow) : ParadaRow :=
  if calleTruthy p.calle then upd_con_calle now p r else upd_sin_calle now p r

/-- Modelled from the claim wording for comparison (refinement check):
the upsert that claim C5 describes, in which an input carrying an
address overwrites ALL seven address fields of the stored stop — the
input has no postal-code, municipality, province, region or full-address
components, so under that reading those become NULL. -/
def upsert_parada_claimC5 (now : ℤ) (rows : List ParadaRow)
    (p : ParadaInput) : List ParadaRow :=
  if rows.any (fun r => r.codigo == p.codigo) then
    rows.map (fun r =>
      if r.codigo == p.codigo then
        if calleTruthy p.calle then
          { r with nombre := p.nombre, latitud := p.latitud,
                   longitud := p.longitud, calle := p.calle,
                   numero := p.numero, codigo_postal := none,
                   municipio := none, provincia := none,
                   comunidad_autonoma := none, direccion_completa := none,
                   updated_at := now }
        else
          { r with nombre := p.nombre, latitud := p.latitud,
                   longitud := p.longitud, updated_at := now }
      else r)
  else
    if calleTruthy p.calle then
      rows ++ [⟨p.codigo, p.nombre, p.latitud, p.longitud, p.calle,
               p.numero, none, none, none, none, none, now⟩]
    else
      rows ++ [⟨p.codigo, p.nombre, p.latitud, p.longitud, none, none,
               none, none, none, none, none, now⟩]

/-- A concrete stored stop with a fully geocoded address. -/
def rowCX : ParadaRow :=
  ⟨"43", "Prado", 37, -5, some "Vieja", some "1", some "41001",
   some "Sevilla", some "Sevilla", some "Andalucia", some "Vieja 1", 0⟩

/-- A concrete upsert input for the same stop carrying an address. -/
def inputConCalle : ParadaInput :=
  ⟨"43", "Prado Nuevo", 38, -6, some "Nueva", some "5"⟩

/-- A concrete upsert input for the same stop without address data. -/
def inputSinCalle : ParadaInput := ⟨"43", "Prado Nuevo", 38, -6, none, none⟩

/-- A concrete direction map: line C4 has both directions recorded at
the stop, line 01 only direction 1. -/
def sentidosMapW : String → List ℤ :=
  fun l => if l = "C4" then [1, 2] else if l = "01" then [1] else []

/-- A concrete upstream arrival payload for the two lines. -/
def lineasW : List LineaCoincidente :=
  [⟨"C4", "#ff0000", [⟨120, "Pino Montano", 500⟩]⟩,
   ⟨"01", "#00ff00", [⟨60, "Centro", 100⟩]⟩]

/-- The arrival of line 01 as assembled by `get_tiempos_parada` for
`sentidosMapW` and `lineasW`. -/
def tiempoW : Tiempo := ⟨"01", "#00ff00", 1, "Centro", 100, some 1⟩

/-- A concrete distance function for witnesses: the stop's latitude read
as a distance in metres. -/
def havW : ℚ → ℚ → ℚ → ℚ → ℚ := fun _ _ plat _ => plat

/-- A concrete bearing function for witnesses. -/
def calcW : ℚ → ℚ → ℚ → ℚ → ℚ := fun _ _ plat plon => plat + plon

/-- Three concrete stops at synthetic distances 150, 50 and 20. -/
def paradasW : List ParadaRow :=
  [⟨"A", "a", 150, 0, none, none, none, none, none, none, none, 0⟩,
   ⟨"B", "b", 50, 0, none, none, none, none, none, none, none, 0⟩,
   ⟨"C", "c", 20, 0, none, none, none, none, none, none, none, 0⟩]

/-! Helper lemmas. -/

/-- Bound on the absolute bearing gap for in-range bearings. -/
theorem abs_sub_lt_of_mem_Ico {b1 b2 : ℚ} (h1 : 0 ≤ b1) (h2 : b1 < 360)
    (h3 : 0 ≤ b2) (h4 : b2 < 360) : |b1 - b2| < 360 := by
  rw [abs_lt]
  constructor <;> linarith

/-- C9: for bearings in `[0, 360)`, `_bearing_diff` lies in `[0, 180]`,
is a lower bound of `|b1 - b2 + 360k|` over every integer `k` (the
minimal angular difference under 0°/360° wraparound), and equals either
the plain gap or its 360° complement; in particular
`_bearing_diff 350 10 = 20` and `_bearing_diff 0 180 = 180`. -/
theorem bearing_diff_spec (b1 b2 : ℚ) (h1 : 0 ≤ b1) (h2 : b1 < 360)
    (h3 : 0 ≤ b2) (h4 : b2 < 360) :
    0 ≤ _bearing_diff b1 b2 ∧ _bearing_diff b1 b2 ≤ 180 ∧
    (∀ k : ℤ, _bearing_diff b1 b2 ≤ |b1 - b2 + 360 * k|) ∧
    (_bearing_diff b1 b2 = |b1 - b2| ∨
      _bearing_diff b1 b2 = 360 - |b1 - b2|) ∧
    _bearing_diff 350 10 = 20 ∧ _bearing_diff 0 180 = 180 := by
  have habs : |b1 - b2| < 360 := abs_sub_lt_of_mem_Ico h1 h2 h3 h4
  have h0 : 0 ≤ |b1 - b2| := abs_nonneg _
  refine ⟨?_, ?_, ?_, ?_, ?_, ?_⟩
  · rw [_bearing_diff, le_min_iff]
    constructor <;> linarith
  · rcases le_total |b1 - b2| 180 with h | h
    · exact le_trans (min_le_left _ _) h
    · exact le_trans (min_le_right _ _) (by linarith)
  · intro k
    rcases lt_trichotomy k 0 with hk | hk | hk
    · have hk0 : k ≤ -1 := by omega
      have hk1 : (k : ℚ) ≤ -1 := by exact_mod_cast hk0
      have f1 := neg_le_abs (b1 - b2 + 360 * (k : ℚ))
      have f2 := le_abs_self (b1 - b2)
      exact le_trans (min_le_right _ _) (by linarith)
    · subst hk
      simp only [_bearing_diff, Int.cast_zero, mul_zero, add_zero]
      exact min_le_left _ _
    · have hk1 : (1 : ℚ) ≤ (k : ℚ) := by exact_mod_cast hk
      have f1 := le_abs_self (b1 - b2 + 360 * (k : ℚ))
      have f2 := neg_abs_le (b1 - b2)
      exact le_trans (min_le_right _ _) (by linarith)
  · rcases le_total |b1 - b2| (360 - |b1 - b2|) with h | h
    · exact Or.inl (min_eq_left h)
    · exact Or.inr (min_eq_right h)
  · unfold _bearing_diff
    rw [show |(350 : ℚ) - 10| = 340 by rw [abs_of_nonneg] <;> norm_num]
    norm_num [min_def]
  · unfold _bearing_diff
    rw [show |(0 : ℚ) - 180| = 180 by rw [abs_of_nonpos] <;> norm_num]
    norm_num [min_def]

/-- Witness for C9 at the concrete bearings 350° and 10°. -/
theorem bearing_diff_spec_witness :
    0 ≤ _bearing_diff 350 10 ∧ _bearing_diff 350 10 ≤ 180 ∧
    _bearing_diff 350 10 = 20 ∧ _bearing_diff 0 180 = 180 := by
  have h := bearing_diff_spec 350 10 (by norm_num) (by norm_num)
    (by norm_num) (by norm_num)
  exact ⟨h.1, h.2.1, h.2.2.2.2.1, h.2.2.2.2.2⟩

/-- C4: behaviour of the retrying GET with `max_retries = 3`.  A
retryable status (429/500/502/503) at attempt `idx` sleeps
`2^(idx + 1)` seconds and retries; three retryable responses exhaust the
loop after sleeping 2 s, 4 s, 8 s and raise an error carrying the last
response's status; a non-retryable error status raises at once with no
sleep; against the response sequence `[429, 200]` the call sleeps 2 s
once and returns status 200 with no error. -/
theorem get_with_retry_spec (responses : ℕ → ℕ) :
    (∀ n idx sleeps, retryable (responses idx) = true →
        get_with_retry_go responses (n + 1) idx sleeps =
          get_with_retry_go responses n (idx + 1) (2 ^ (idx + 1) :: sleeps)) ∧
    ((∀ i < 3, retryable (responses i) = true) →
        get_with_retry responses 3 = ([2, 4, 8], Except.error (responses 2))) ∧
    (retryable (responses 0) = false → raisesStatus (responses 0) = true →
        get_with_retry responses 3 = ([], Except.error (responses 0))) ∧
    (responses 0 = 429 → responses 1 = 200 →
        get_with_retry responses 3 = ([2], Except.ok 200)) := by
  refine ⟨?_, ?_, ?_, ?_⟩
  · intro n idx sleeps h
    simp [get_with_retry_go, h]
  · intro h
    have h0 := h 0 (by norm_num)
    have h1 := h 1 (by norm_num)
    have h2 := h 2 (by norm_num)
    simp [get_with_retry, get_with_retry_go, h0, h1, h2]
  · intro h1 h2
    simp [get_with_retry, get_with_retry_go, h1, h2]
  · intro h0 h1
    simp [get_with_retry, get_with_retry_go, h0, h1, retryable, raisesStatus]

/-- Witness for C4 at the concrete response sequence [429, 200]. -/
theorem get_with_retry_spec_witness :
    get_with_retry (fun i => if i = 0 then 429 else 200) 3 =
      ([2], Except.ok 200) :=
  (get_with_retry_spec (fun i => if i = 0 then 429 else 200)).2.2.2 rfl rfl

/-- C3: the membership-replace operation called with an empty input set
is a pure no-op: nothing is deleted or modified, and the stored
membership table is identical before and after the call. -/
theorem save_paradas_lineas_batch_empty_noop (fails : Relacion → Bool)
    (table : List Relacion) :
    save_paradas_lineas_batch fails [] table = Except.ok table := rfl

/-- C10: the proximity search does not depend on its
`bearing_tolerance` argument, which the composite nearby-with-arrivals
endpoint applies only afterwards, as a post-filter on `bearing_diff`
(followed by the `max_paradas` cap). -/
theorem bearing_tolerance_independence
    (haversine calculate_bearing : ℚ → ℚ → ℚ → ℚ → ℚ)
    (lat lon radio : ℚ) (bearing : Option ℚ) (t1 t2 : ℚ)
    (paradas : List ParadaRow) (b : ℚ) (max_paradas : ℕ) :
    get_paradas_cercanas haversine calculate_bearing lat lon radio bearing
        t1 paradas =
      get_paradas_cercanas haversine calculate_bearing lat lon radio bearing
        t2 paradas ∧
    seleccion_paradas_endpoint haversine calculate_bearing lat lon radio
        (some b) t1 max_paradas paradas =
      ((get_paradas_cercanas haversine calculate_bearing lat lon radio
          (some b) t1 paradas).filter (fun p =>
            decide (((p.bearing_diff.getD 999 : ℤ) : ℚ) ≤ t1))).take
        max_paradas ∧
    seleccion_paradas_endpoint haversine calculate_bearing lat lon radio
        none t1 max_paradas paradas =
      (get_paradas_cercanas haversine calculate_bearing lat lon radio none
        t1 paradas).take max_paradas :=
  ⟨rfl, rfl, rfl⟩

/-- Membership in the result of `insertOrIgnore` comes from the old rows
or is the inserted row. -/
theorem mem_insertOrIgnore {rows : List Relacion} {r x : Relacion}
    (hx : x ∈ insertOrIgnore rows r) : x ∈ rows ∨ x = r := by
  unfold insertOrIgnore at hx
  split at hx
  · exact Or.inl hx
  · rcases List.mem_append.mp hx with h | h
    · exact Or.inl h
    · exact Or.inr (List.mem_singleton.mp h)

/-- Old rows survive `insertOrIgnore`. -/
theorem insertOrIgnore_mem_of_mem {rows : List Relacion} {x : Relacion}
    (r : Relacion) (hx : x ∈ rows) : x ∈ insertOrIgnore rows r := by
  unfold insertOrIgnore
  split
  · exact hx
  · exact List.mem_append.mpr (Or.inl hx)

/-- After `insertOrIgnore rows r` some row carries the key of `r`. -/
theorem relKey_mem_insertOrIgnore (rows : List Relacion) (r : Relacion) :
    ∃ x ∈ insertOrIgnore rows r, relKey x = relKey r := by
  unfold insertOrIgnore
  split
  · rename_i h
    obtain ⟨x, hx, hkey⟩ := List.any_eq_true.mp h
    exact ⟨x, hx, of_decide_eq_true hkey⟩
  · exact ⟨r, List.mem_append.mpr (Or.inr (List.mem_singleton.mpr rfl)), rfl⟩

/-- Every row of a successful `insertAll` run comes from the initial
rows or from the inserted batch. -/
theorem insertAll_mem (fails : Relacion → Bool) :
    ∀ (rest init rows : List Relacion),
      insertAll fails init rest = some rows → ∀ x ∈ rows, x ∈ init ∨ x ∈ rest
  | [], init, rows, h, x, hx => by
      unfold insertAll at h
      cases h
      exact Or.inl hx
  | r :: rest, init, rows, h, x, hx => by
      unfold insertAll at h
      split at h
      · cases h
      · rcases insertAll_mem fails rest _ rows h x hx with h1 | h1
        · rcases mem_insertOrIgnore h1 with h2 | h2
          · exact Or.inl h2
          · exact Or.inr (h2 ▸ List.mem_cons_self r rest)
        · exact Or.inr (List.mem_cons_of_mem _ h1)

/-- A key present among the initial rows is still present after a
successful `insertAll` run. -/
theorem insertAll_key_present (fails : Relacion → Bool) :
    ∀ (rest init rows : List Relacion),
      insertAll fails init rest = some rows →
      ∀ x ∈ init, ∃ y ∈ rows, relKey y = relKey x
  | [], init, rows, h, x, hx => by
      unfold insertAll at h
      cases h
      exact ⟨x, hx, rfl⟩
  | r :: rest, init, rows, h, x, hx => by
      unfold insertAll at h
      split at h
      · cases h
      · exact insertAll_key_present fails rest _ rows h x
          (insertOrIgnore_mem_of_mem r hx)

/-- Every key of the inserted batch is present after a successful
`insertAll` run. -/
theorem insertAll_keys (fails : Relacion → Bool) :
    ∀ (rest init rows : List Relacion),
      insertAll fails init rest = some rows →
      ∀ r ∈ rest, ∃ y ∈ rows, relKey y = relKey r
  | [], _, _, _, r, hr => absurd hr (List.not_mem_nil r)
  | s :: rest, init, rows, h, r, hr => by
      unfold insertAll at h
      split at h
      · cases h
      · rcases List.mem_cons.mp hr with rfl | hr2
        · obtain ⟨x, hx, hkey⟩ := relKey_mem_insertOrIgnore init r
          obtain ⟨y, hy, hkey2⟩ :=
            insertAll_key_present fails rest _ rows h x hx
          exact ⟨y, hy, hkey2.trans hkey⟩
        · exact insertAll_keys fails rest _ rows h r hr2

/-- C2: membership replace on a non-empty input set is transactional
all-or-nothing.  If every insertion succeeds, the call commits a table
built from the new set alone — every prior row is gone (rows for stops
absent from the new set included), every stored row belongs to the new
set and every new row's key is stored.  If any insertion fails, the
deletion is rolled back and the pre-call table is returned unchanged by
the raised error. -/
theorem save_paradas_lineas_batch_replace (fails : Relacion → Bool)
    (relaciones table : List Relacion) (hne : relaciones ≠ []) :
    (∀ rows, insertAll fails [] relaciones = some rows →
        save_paradas_lineas_batch fails relaciones table = Except.ok rows ∧
        (∀ x ∈ rows, x ∈ relaciones) ∧
        (∀ r ∈ relaciones, ∃ x ∈ rows, relKey x = relKey r)) ∧
    (insertAll fails [] relaciones = none →
        save_paradas_lineas_batch fails relaciones table =
          Except.error table) := by
  have hempty : relaciones.isEmpty = false := by
    simpa [List.isEmpty_iff] using hne
  constructor
  · intro rows hrows
    refine ⟨?_, ?_, ?_⟩
    · unfold save_paradas_lineas_batch
      rw [hempty, hrows]
      rfl
    · intro x hx
      rcases insertAll_mem fails relaciones [] rows hrows x hx with h | h
      · exact absurd h (List.not_mem_nil x)
      · exact h
    · exact insertAll_keys fails relaciones [] rows hrows
  · intro hnone
    unfold save_paradas_lineas_batch
    rw [hempty, hnone]
    rfl

/-- Witness for C2: replacing the membership row for stop B by one for
stop A commits exactly the new set. -/
theorem save_paradas_lineas_batch_replace_witness :
    save_paradas_lineas_batch (fun _ => false) [⟨"A", "01", 1, 0⟩]
        [⟨"B", "02", 2, 5⟩] =
      Except.ok [⟨"A", "01", 1, 0⟩] := by
  have h := save_paradas_lineas_batch_replace (fun _ => false)
    [⟨"A", "01", 1, 0⟩] [⟨"B", "02", 2, 5⟩] (by simp)
  exact (h.1 [⟨"A", "01", 1, 0⟩] rfl).1

/-- After `save_tiempos_cache`, looking the stop up finds exactly the
freshly written row. -/
theorem find?_save_tiempos (s : ℤ) (table : List TiemposRow)
    (codigo json : String) :
    (save_tiempos_cache s table codigo json).find?
        (fun r => r.parada_codigo == codigo) =
      some ⟨codigo, json, s⟩ := by
  unfold save_tiempos_cache
  rw [List.find?_append]
  have h1 : (table.filter (fun r => !(r.parada_codigo == codigo))).find?
      (fun r => r.parada_codigo == codigo) = none := by
    rw [List.find?_eq_none]
    intro x hx
    have hp := (List.mem_filter.mp hx).2
    simp only [Bool.not_eq_true'] at hp
    simp [hp]
  rw [h1]
  simp [List.find?]

/-- After `save_direccion_cache`, looking up any coordinates with the
same rounded key finds exactly the freshly written row. -/
theorem find?_save_direccion (s : ℤ) (table : List DireccionRow)
    (lat lon : ℚ) (json : String) :
    (save_direccion_cache s table lat lon json).find?
        (fun r => decide (r.latitud = round4 lat ∧ r.longitud = round4 lon)) =
      some ⟨round4 lat, round4 lon, json, s⟩ := by
  unfold save_direccion_cache
  rw [List.find?_append]
  have h1 : (table.filter (fun r =>
      !decide (r.latitud = round4 lat ∧ r.longitud = round4 lon))).find?
        (fun r => decide (r.latitud = round4 lat ∧ r.longitud = round4 lon)) =
      none := by
    rw [List.find?_eq_none]
    intro x hx
    have hp := (List.mem_filter.mp hx).2
    simp only [Bool.not_eq_true'] at hp
    simp [hp]
  rw [h1]
  simp [List.find?]

/-- C6: both caches apply their TTL at read time.  An arrival entry
written `now - s` seconds ago is served with its payload unchanged while
younger than 1 minute (e.g. 30 s) and is an invisible miss from 60 s on
(e.g. beyond 1 minute), the expired row staying in the table; an address
entry is served while younger than 30 days (e.g. 29 days old) and is a
miss from 30 days on (e.g. 31 days old), again without being deleted. -/
theorem cache_ttl_read_spec (jsonOk : String → Bool) (now s : ℤ)
    (ttable : List TiemposRow) (dtable : List DireccionRow)
    (codigo json : String) (lat lon : ℚ) (hok : jsonOk json = true) :
    (now - s < 60 →
        get_cached_tiempos jsonOk now (save_tiempos_cache s ttable codigo json)
            codigo =
          (some json, save_tiempos_cache s ttable codigo json)) ∧
    (60 ≤ now - s →
        get_cached_tiempos jsonOk now (save_tiempos_cache s ttable codigo json)
            codigo =
          (none, save_tiempos_cache s ttable codigo json)) ∧
    (now - s < 30 * 86400 →
        get_cached_direccion jsonOk now
            (save_direccion_cache s dtable lat lon json) lat lon =
          (some json, save_direccion_cache s dtable lat lon json)) ∧
    (30 * 86400 ≤ now - s →
        get_cached_direccion jsonOk now
            (save_direccion_cache s dtable lat lon json) lat lon =
          (none, save_direccion_cache s dtable lat lon json)) := by
  refine ⟨?_, ?_, ?_, ?_⟩
  · intro hfresh
    unfold get_cached_tiempos
    rw [find?_save_tiempos]
    simp [CACHE_TTL_MINUTES, hfresh, hok]
  · intro hold
    unfold get_cached_tiempos
    rw [find?_save_tiempos]
    simp [CACHE_TTL_MINUTES, not_lt.mpr hold]
  · intro hfresh
    simp only [get_cached_direccion]
    rw [find?_save_direccion]
    have h2 : now - s < CACHE_DIRECCIONES_TTL_DIAS * 86400 := by
      simp only [CACHE_DIRECCIONES_TTL_DIAS]
      omega
    simp [h2, hok]
  · intro hold
    simp only [get_cached_direccion]
    rw [find?_save_direccion]
    have h2 : ¬(now - s < CACHE_DIRECCIONES_TTL_DIAS * 86400) := by
      simp only [CACHE_DIRECCIONES_TTL_DIAS]
      omega
    simp [h2]

/-- Witness for C6: a 30-second-old arrival entry is a hit with its
payload; a 31-day-old address entry is a miss and stays stored. -/
theorem cache_ttl_read_spec_witness :
    (get_cached_tiempos (fun _ => true) 30
        (save_tiempos_cache 0 [] "43" "payload") "43" =
      (some "payload", save_tiempos_cache 0 [] "43" "payload")) ∧
    (get_cached_direccion (fun _ => true) (31 * 86400)
        (save_direccion_cache 0 [] 37.3896 (-5.9842) "addr") 37.3896
        (-5.9842) =
      (none, save_direccion_cache 0 [] 37.3896 (-5.9842) "addr")) := by
  constructor
  · exact (cache_ttl_read_spec (fun _ => true) 30 0 [] [] "43" "payload"
      37.3896 (-5.9842) rfl).1 (by norm_num)
  · exact (cache_ttl_read_spec (fun _ => true) (31 * 86400) 0 [] [] "43"
      "addr" 37.3896 (-5.9842) rfl).2.2.2 (by norm_num)

/-- Rounded value of the first claimed longitude. -/
theorem round4_lon1 : round4 ((-5.98427) : ℚ) = -59843 / 10000 := by
  norm_num [round4, round_eq]

/-- Rounded value of the second claimed longitude. -/
theorem round4_lon2 : round4 ((-5.98424) : ℚ) = -59842 / 10000 := by
  norm_num [round4, round_eq]

/-- The two claimed latitudes round to the same key component. -/
theorem round4_lat_eq : round4 (37.38961 : ℚ) = round4 (37.38959 : ℚ) := by
  norm_num [round4, round_eq]

/-- Counterexample to C8 as stated: the coordinate pairs
(37.38961, -5.98427) and (37.38959, -5.98424) do NOT map to the same
address-cache key — the latitudes both round to 37.3896, but the
longitudes round to -5.9843 and -5.9842 respectively. -/
theorem round4_pairs_counterexample :
    (round4 (37.38961 : ℚ), round4 ((-5.98427) : ℚ)) ≠
      (round4 (37.38959 : ℚ), round4 ((-5.98424) : ℚ)) := by
  intro h
  rw [Prod.ext_iff] at h
  have h2 := h.2
  rw [round4_lon1, round4_lon2] at h2
  norm_num at h2

/-- C8 amended: the address cache keys every entry by the query
coordinates rounded to 4 decimal places, the same rounding applied on
read and on write — any two coordinate pairs with equal rounded
components hit the same entry.  However, while the latitudes 37.38961
and 37.38959 round to the same component, the longitudes -5.98427 and
-5.98424 round to -5.9843 and -5.9842, so the two claimed pairs map to
different keys: a fresh entry saved under the first pair is invisible to
a read under the second. -/
theorem direccion_cache_key_spec (jsonOk : String → Bool) (now s : ℤ)
    (table : List DireccionRow) (lat lon lat2 lon2 : ℚ) (json : String)
    (hok : jsonOk json = true) (hfresh : now - s < 30 * 86400)
    (hlat : round4 lat2 = round4 lat) (hlon : round4 lon2 = round4 lon) :
    (get_cached_direccion jsonOk now
        (save_direccion_cache s table lat lon json) lat2 lon2).1 =
      some json ∧
    round4 (37.38961 : ℚ) = round4 (37.38959 : ℚ) ∧
    round4 ((-5.98427) : ℚ) = -59843 / 10000 ∧
    round4 ((-5.98424) : ℚ) = -59842 / 10000 ∧
    (∀ (ok2 : String → Bool) (now2 s2 : ℤ) (j2 : String),
        (get_cached_direccion ok2 now2
            (save_direccion_cache s2 [] 37.38961 (-5.98427) j2)
            37.38959 (-5.98424)).1 = none) := by
  refine ⟨?_, round4_lat_eq, round4_lon1, round4_lon2, ?_⟩
  · simp only [get_cached_direccion, hlat, hlon]
    rw [find?_save_direccion]
    have h2 : now - s < CACHE_DIRECCIONES_TTL_DIAS * 86400 := by
      simp only [CACHE_DIRECCIONES_TTL_DIAS]
      omega
    simp [h2, hok]
  · intro ok2 now2 s2 j2
    have hne : ¬(round4 ((-5.98427) : ℚ) = round4 ((-5.98424) : ℚ)) := by
      rw [round4_lon1, round4_lon2]
      norm_num
    simp only [get_cached_direccion, save_direccion_cache,
      List.filter_nil, List.nil_append, List.find?]
    rw [show (decide (round4 (37.38961 : ℚ) = round4 (37.38959 : ℚ) ∧
        round4 ((-5.98427) : ℚ) = round4 ((-5.98424) : ℚ))) = false by
      simp [hne]]

/-- Witness for C8 amended: saving an address under (37.3896, -5.9843)
and reading it back one day later under coordinates rounding to the same
key returns the payload. -/
theorem direccion_cache_key_spec_witness :
    (get_cached_direccion (fun _ => true) 86400
        (save_direccion_cache 0 [] 37.38961 (-5.98427) "addr")
        37.38959 (-5.98427)).1 = some "addr" :=
  (direccion_cache_key_spec (fun _ => true) 86400 0 [] 37.38961 (-5.98427)
    37.38959 (-5.98427) "addr" rfl (by norm_num) round4_lat_eq.symm rfl).1

/-- The conflict update preserves the stored row's code. -/
theorem upd_parada_codigo (now : ℤ) (p : ParadaInput) (r : ParadaRow) :
    (upd_parada now p r).codigo = r.codigo := by
  unfold upd_parada upd_con_calle upd_sin_calle
  split <;> rfl

/-- Finding a stop after mapping the conflict update over a table with
pairwise-distinct codes returns the updated row. -/
theorem findParada_map_update (p : ParadaInput) (now : ℤ) :
    ∀ (rows : List ParadaRow) (r : ParadaRow), r ∈ rows →
      r.codigo = p.codigo →
      rows.Pairwise (fun a b => a.codigo ≠ b.codigo) →
      findParada (rows.map (fun x =>
          if x.codigo == p.codigo then upd_parada now p x else x)) p.codigo =
        some (upd_parada now p r)
  | [], r, hr, _, _ => absurd hr (List.not_mem_nil r)
  | a :: rows, r, hr, hcode, hp => by
      rcases List.mem_cons.mp hr with rfl | hr2
      · have ha : (r.codigo == p.codigo) = true := by simp [hcode]
        unfold findParada
        simp only [List.map_cons, ha, if_true]
        rw [List.find?_cons_of_pos]
        simp [upd_parada_codigo, hcode]
      · have hne : a.codigo ≠ p.codigo := by
          have h1 := (List.pairwise_cons.mp hp).1 r hr2
          rw [hcode] at h1
          exact h1
        unfold findParada
        simp only [List.map_cons]
        rw [if_neg (by simp [hne] : ¬((a.codigo == p.codigo) = true))]
        rw [List.find?_cons_of_neg _ (by simp [hne])]
        exact findParada_map_update p now rows r hr2 hcode
          (List.pairwise_cons.mp hp).2

/-- C5 amended: upserting a stop whose code is already stored updates in
place (the stop count is unchanged) and the stored row becomes
`upd_parada now p r`: name, latitude and longitude always take the input
values; when the input carries no address every address field — street,
number, postal code, municipality, province, region, full address — is
preserved; when the input carries an address only street and number are
overwritten, while postal code, municipality, province, region and full
address keep their previously stored values. -/
theorem save_paradas_batch_upsert_spec (now : ℤ) (rows : List ParadaRow)
    (p : ParadaInput) (r : ParadaRow) (hr : r ∈ rows)
    (hcode : r.codigo = p.codigo)
    (huniq : rows.Pairwise (fun a b => a.codigo ≠ b.codigo)) :
    (upsert_parada now rows p).length = rows.length ∧
    findParada (upsert_parada now rows p) p.codigo =
      some (upd_parada now p r) ∧
    (upd_parada now p r).codigo_postal = r.codigo_postal ∧
    (upd_parada now p r).municipio = r.municipio ∧
    (upd_parada now p r).provincia = r.provincia ∧
    (upd_parada now p r).comunidad_autonoma = r.comunidad_autonoma ∧
    (upd_parada now p r).direccion_completa = r.direccion_completa ∧
    (calleTruthy p.calle = false →
      (upd_parada now p r).calle = r.calle ∧
      (upd_parada now p r).numero = r.numero) ∧
    (calleTruthy p.calle = true →
      (upd_parada now p r).calle = p.calle ∧
      (upd_parada now p r).numero = p.numero) ∧
    (upd_parada now p r).nombre = p.nombre ∧
    (upd_parada now p r).latitud = p.latitud ∧
    (upd_parada now p r).longitud = p.longitud := by
  have hany : rows.any (fun x => x.codigo == p.codigo) = true :=
    List.any_eq_true.mpr ⟨r, hr, by simp [hcode]⟩
  have hform : upsert_parada now rows p =
      rows.map (fun x =>
        if x.codigo == p.codigo then upd_parada now p x else x) := by
    unfold upsert_parada
    rw [if_pos hany]
    rfl
  refine ⟨?_, ?_, ?_, ?_, ?_, ?_, ?_, ?_, ?_, ?_, ?_, ?_⟩
  · rw [hform, List.length_map]
  · rw [hform]
    exact findParada_map_update p now rows r hr hcode huniq
  all_goals
    unfold upd_parada upd_con_calle upd_sin_calle
  · split <;> rfl
  · split <;> rfl
  · split <;> rfl
  · split <;> rfl
  · split <;> rfl
  · intro h
    rw [h]
    exact ⟨rfl, rfl⟩
  · intro h
    rw [h]
    exact ⟨rfl, rfl⟩
  · split <;> rfl
  · split <;> rfl
  · split <;> rfl

/-- Witness for C5 amended: upserting stop 43 without address data
keeps the stored postal code 41001 (and the full address row is the
no-address update of the old row). -/
theorem save_paradas_batch_upsert_spec_witness :
    (upsert_parada 10 [rowCX] inputSinCalle).length = 1 ∧
    findParada (upsert_parada 10 [rowCX] inputSinCalle) "43" =
      some (upd_parada 10 inputSinCalle rowCX) ∧
    (upd_parada 10 inputSinCalle rowCX).codigo_postal = some "41001" := by
  have h := save_paradas_batch_upsert_spec 10 [rowCX] inputSinCalle rowCX
    (by simp) rfl (by simp)
  exact ⟨h.1, h.2.1, h.2.2.1⟩

/-- Counterexample to C5 as stated: upserting stop 43 with an input that
carries an address does NOT overwrite all stored address fields — the
code keeps the stored postal code 41001 (and municipality, province,
region, full address), where the claimed overwrite-all behaviour
(`upsert_parada_claimC5`, modelled from the claim wording) would null
them out. -/
theorem save_paradas_batch_address_counterexample :
    upsert_parada 10 [rowCX] inputConCalle ≠
      upsert_parada_claimC5 10 [rowCX] inputConCalle ∧
    (upsert_parada 10 [rowCX] inputConCalle).map (·.codigo_postal) =
      [some "41001"] ∧
    (upsert_parada_claimC5 10 [rowCX] inputConCalle).map (·.codigo_postal) =
      [none] := by
  refine ⟨by decide, by decide, by decide⟩

/-- Transitivity of the arrival-minutes comparison. -/
theorem leTiempo_trans (a b c : Tiempo) (hab : leTiempo a b = true)
    (hbc : leTiempo b c = true) : leTiempo a c = true := by
  simp only [leTiempo, decide_eq_true_eq] at hab hbc ⊢
  omega

/-- Totality of the arrival-minutes comparison. -/
theorem leTiempo_total (a b : Tiempo) : (leTiempo a b || leTiempo b a) = true := by
  simp only [leTiempo, Bool.or_eq_true, decide_eq_true_eq]
  omega

/-- Every assembled arrival carries the direction resolved from the
membership map of its line. -/
theorem build_tiempos_sentido (sentidos_map : String → List ℤ)
    (lineas : List LineaCoincidente) :
    ∀ t ∈ build_tiempos sentidos_map lineas,
      t.sentido = match sentidos_map t.linea with
        | [s] => some s
        | _ => none := by
  intro t ht
  unfold build_tiempos at ht
  rw [List.mem_flatMap] at ht
  obtain ⟨linea, _, ht2⟩ := ht
  rw [List.mem_map] at ht2
  obtain ⟨est, _, rfl⟩ := ht2
  rcases hs : sentidos_map linea.labelLinea with _ | ⟨s, _ | ⟨s2, rest⟩⟩ <;>
    simp [hs]

/-- C7: the arrivals returned for a stop resolve each line's direction
from the membership table — exactly one recorded direction is carried
over, zero or several are reported as unknown (`none`); the list is
sorted ascending by minutes-until-arrival and capped to the 10 soonest
(the remaining arrivals all lie at least as far in the future). -/
theorem get_tiempos_parada_spec (sentidos_map : String → List ℤ)
    (lineas : List LineaCoincidente) :
    (∀ t ∈ get_tiempos_parada sentidos_map lineas,
        (∀ s, sentidos_map t.linea = [s] → t.sentido = some s) ∧
        ((sentidos_map t.linea).length ≠ 1 → t.sentido = none)) ∧
    List.Pairwise (fun x y : Tiempo => x.tiempo_minutos ≤ y.tiempo_minutos)
      (get_tiempos_parada sentidos_map lineas) ∧
    (get_tiempos_parada sentidos_map lineas).length ≤ 10 ∧
    (∃ rest, ((get_tiempos_parada sentidos_map lineas) ++ rest).Perm
        (build_tiempos sentidos_map lineas) ∧
      ∀ t ∈ get_tiempos_parada sentidos_map lineas, ∀ u ∈ rest,
        t.tiempo_minutos ≤ u.tiempo_minutos) := by
  have hsorted : List.Pairwise
      (fun x y : Tiempo => x.tiempo_minutos ≤ y.tiempo_minutos)
      ((build_tiempos sentidos_map lineas).mergeSort leTiempo) :=
    (List.sorted_mergeSort leTiempo_trans leTiempo_total _).imp
      (fun h => by simpa [leTiempo] using h)
  refine ⟨?_, ?_, ?_, ?_⟩
  · intro t ht
    have hmem : t ∈ build_tiempos sentidos_map lineas := by
      have h1 : t ∈ (build_tiempos sentidos_map lineas).mergeSort leTiempo :=
        (List.take_sublist _ _).subset ht
      exact List.mem_mergeSort.mp h1
    have hmatch := build_tiempos_sentido sentidos_map lineas t hmem
    constructor
    · intro s hs
      rw [hs] at hmatch
      simpa using hmatch
    · intro hlen
      rcases hl : sentidos_map t.linea with _ | ⟨s, _ | ⟨s2, rest⟩⟩
      · rw [hl] at hmatch
        simpa using hmatch
      · rw [hl] at hlen
        simp at hlen
      · rw [hl] at hmatch
        simpa using hmatch
  · exact List.Pairwise.sublist (List.take_sublist _ _) hsorted
  · unfold get_tiempos_parada
    exact List.length_take_le _ _
  · refine ⟨((build_tiempos sentidos_map lineas).mergeSort leTiempo).drop 10,
      ?_, ?_⟩
    · unfold get_tiempos_parada
      rw [List.take_append_drop]
      exact List.mergeSort_perm _ _
    · have h3 := List.pairwise_append.mp
        (show List.Pairwise
            (fun x y : Tiempo => x.tiempo_minutos ≤ y.tiempo_minutos)
            (((build_tiempos sentidos_map lineas).mergeSort leTiempo).take 10 ++
              ((build_tiempos sentidos_map lineas).mergeSort leTiempo).drop 10)
          by rw [List.take_append_drop]; exact hsorted)
      exact fun t ht u hu => h3.2.2 t ht u hu

/-- Witness for C7 on concrete data: the list is capped at 10 and line
01 — with exactly direction 1 recorded — yields direction 1 for its
arrival. -/
theorem get_tiempos_parada_spec_witness :
    (get_tiempos_parada sentidosMapW lineasW).length ≤ 10 ∧
    tiempoW.sentido = some 1 := by
  have h := get_tiempos_parada_spec sentidosMapW lineasW
  have hlen : ((build_tiempos sentidosMapW lineasW).mergeSort leTiempo).length ≤ 10 := by
    rw [List.length_mergeSort]
    decide
  have htake : get_tiempos_parada sentidosMapW lineasW =
      (build_tiempos sentidosMapW lineasW).mergeSort leTiempo := by
    unfold get_tiempos_parada
    exact List.take_of_length_le hlen
  have hmem : tiempoW ∈ get_tiempos_parada sentidosMapW lineasW := by
    rw [htake, List.mem_mergeSort]
    decide
  exact ⟨h.2.2.1, (h.1 tiempoW hmem).1 1 (by decide)⟩

/-- Transitivity of the distance comparison. -/
theorem leDistancia_trans (a b c : ParadaCercana)
    (hab : leDistancia a b = true) (hbc : leDistancia b c = true) :
    leDistancia a c = true := by
  simp only [leDistancia, decide_eq_true_eq] at hab hbc ⊢
  omega

/-- Totality of the distance comparison. -/
theorem leDistancia_total (a b : ParadaCercana) :
    (leDistancia a b || leDistancia b a) = true := by
  simp only [leDistancia, Bool.or_eq_true, decide_eq_true_eq]
  omega

/-- Transitivity of the bearing-difference comparison. -/
theorem leBearingDiff_trans (a b c : ParadaCercana)
    (hab : leBearingDiff a b = true) (hbc : leBearingDiff b c = true) :
    leBearingDiff a c = true := by
  simp only [leBearingDiff, decide_eq_true_eq] at hab hbc ⊢
  omega

/-- Totality of the bearing-difference comparison. -/
theorem leBearingDiff_total (a b : ParadaCercana) :
    (leBearingDiff a b || leBearingDiff b a) = true := by
  simp only [leBearingDiff, Bool.or_eq_true, decide_eq_true_eq]
  omega

/-- A filterMap whose function is a guarded `some` is a filter followed
by a map. -/
theorem filterMap_if_eq_map_filter {α β : Type _} (c : α → Bool) (g : α → β) :
    ∀ l : List α,
      l.filterMap (fun a => if c a then some (g a) else none) =
        (l.filter c).map g
  | [] => rfl
  | a :: l => by
      by_cases h : c a <;>
        simp [List.filterMap_cons, List.filter_cons, h,
          filterMap_if_eq_map_filter c g l]

/-- The annotation keeps the underlying stop row. -/
theorem anota_parada (haversine calculate_bearing : ℚ → ℚ → ℚ → ℚ → ℚ)
    (lat lon : ℚ) (bearing : Option ℚ) (p : ParadaRow) :
    (anota haversine calculate_bearing lat lon bearing p).parada = p := by
  cases bearing <;> rfl

/-- Projecting the scan result back to stop rows gives exactly the
radius filter of the input. -/
theorem paradas_en_radio_map_parada
    (haversine calculate_bearing : ℚ → ℚ → ℚ → ℚ → ℚ)
    (lat lon radio : ℚ) (bearing : Option ℚ) (paradas : List ParadaRow) :
    (paradas_en_radio haversine calculate_bearing lat lon radio bearing
        paradas).map (fun c => c.parada) =
      paradas.filter (en_radio haversine lat lon radio) := by
  unfold paradas_en_radio
  rw [filterMap_if_eq_map_filter, List.map_map]
  have h : ((fun c : ParadaCercana => c.parada) ∘
      anota haversine calculate_bearing lat lon bearing) = id := by
    funext p
    exact anota_parada haversine calculate_bearing lat lon bearing p
  rw [h, List.map_id]

/-- C1: for every distance function (in particular the haversine), the
proximity search returns exactly the stops within the radius — the
returned stop rows are a permutation of the radius filter of the stored
stops; without a bearing the result is sorted ascending by the
`distancia` annotation, with a bearing it is sorted ascending by the
`bearing_diff` annotation; and the sort is stable — any two kept stops
in scan (input) order whose sort keys are in order, in particular ties,
keep their relative order in the result. -/
theorem get_paradas_cercanas_spec
    (haversine calculate_bearing : ℚ → ℚ → ℚ → ℚ → ℚ)
    (lat lon radio : ℚ) (bearing : Option ℚ) (bearing_tolerance : ℚ)
    (paradas : List ParadaRow) :
    ((get_paradas_cercanas haversine calculate_bearing lat lon radio bearing
        bearing_tolerance paradas).map (fun c => c.parada)).Perm
      (paradas.filter (en_radio haversine lat lon radio)) ∧
    (bearing = none →
      List.Pairwise (fun x y : ParadaCercana => x.distancia ≤ y.distancia)
        (get_paradas_cercanas haversine calculate_bearing lat lon radio
          bearing bearing_tolerance paradas)) ∧
    (∀ b, bearing = some b →
      List.Pairwise (fun x y : ParadaCercana =>
          x.bearing_diff.getD 999 ≤ y.bearing_diff.getD 999)
        (get_paradas_cercanas haversine calculate_bearing lat lon radio
          bearing bearing_tolerance paradas)) ∧
    (bearing = none → ∀ x y : ParadaCercana,
      [x, y].Sublist (paradas_en_radio haversine calculate_bearing lat lon
        radio bearing paradas) →
      x.distancia ≤ y.distancia →
      [x, y].Sublist (get_paradas_cercanas haversine calculate_bearing lat
        lon radio bearing bearing_tolerance paradas)) ∧
    (∀ b, bearing = some b → ∀ x y : ParadaCercana,
      [x, y].Sublist (paradas_en_radio haversine calculate_bearing lat lon
        radio bearing paradas) →
      x.bearing_diff.getD 999 ≤ y.bearing_diff.getD 999 →
      [x, y].Sublist (get_paradas_cercanas haversine calculate_bearing lat
        lon radio bearing bearing_tolerance paradas)) := by
  refine ⟨?_, ?_, ?_, ?_, ?_⟩
  · rcases bearing with _ | b <;>
    · simp only [get_paradas_cercanas]
      refine (List.Perm.map _ (List.mergeSort_perm _ _)).trans ?_
      rw [paradas_en_radio_map_parada]
  · rintro rfl
    simp only [get_paradas_cercanas]
    exact (List.sorted_mergeSort leDistancia_trans leDistancia_total _).imp
      (fun h => by simpa [leDistancia] using h)
  · rintro b rfl
    simp only [get_paradas_cercanas]
    exact (List.sorted_mergeSort leBearingDiff_trans leBearingDiff_total _).imp
      (fun h => by simpa [leBearingDiff] using h)
  · rintro rfl x y hsub hle
    simp only [get_paradas_cercanas]
    exact List.pair_sublist_mergeSort leDistancia_trans leDistancia_total
      (decide_eq_true hle) hsub
  · rintro b rfl x y hsub hle
    simp only [get_paradas_cercanas]
    exact List.pair_sublist_mergeSort leBearingDiff_trans leBearingDiff_total
      (decide_eq_true hle) hsub

/-- Witness for C1 on concrete data: with three stops at synthetic
distances 150, 50 and 20 and radius 100, the returned stops are exactly
the two within the radius and the result is sorted by distance. -/
theorem get_paradas_cercanas_spec_witness :
    ((get_paradas_cercanas havW calcW 0 0 100 none 60 paradasW).map
        (fun c => c.parada)).Perm
      (paradasW.filter (en_radio havW 0 0 100)) ∧
    List.Pairwise (fun x y : ParadaCercana => x.distancia ≤ y.distancia)
      (get_paradas_cercanas havW calcW 0 0 100 none 60 paradasW) := by
  have h := get_paradas_cercanas_spec havW calcW 0 0 100 none 60 paradasW
  exact ⟨h.1, h.2.1 rfl⟩

end Tussam
